import Mathlib

/-!
# Verification of the UV-history reconciliation core of `proyecto-uv.py`

Shallow embedding of the data-assembly functions of `src/proyecto-uv.py`:

* `_uv_json_to_df`  (normalizer of Open-Meteo `daily` payloads),
* `fetch_uv_daily_smart`  (the archive + forecast reconciliation routine),
* `fetch_mindicador_series`  (the mindicador.cl economic-indicator fetcher).

Modelling conventions:

* Calendar dates are integers (`ℤ`), one unit per day; `date.today()` is an
  explicit parameter `today`, so `AYER` (yesterday) is `today - 1`.
* UV/price values are rationals (`ℚ`).  `pd.to_numeric(..., errors="coerce")`
  turns a non-numeric entry into NaN, which `dropna` then removes; we model a
  raw value cell as `Option ℚ` with `none` standing for a non-numeric entry.
* A raw Open-Meteo payload is modelled by `Payload := Option (List (ℤ × Option ℚ))`:
  `none` models a payload for which `not d or "daily" not in d or "time" not in d["daily"]`
  holds; `some rows` models the `daily` block with its parallel `time` /
  `uv_index_max` arrays zipped into rows (the upstream API always returns
  parallel arrays of equal length; unequal lengths raise inside pandas and are
  outside this model).
* `_safe_json_get` returns either `(json, None)` or `({}, errmsg)`; an upstream
  response is therefore an `Except String Payload` (`.error msg` carries the
  diagnostic, and the data seen by the caller in that case is `{}`, i.e. the
  empty payload `none`).
* `requests` traffic is replaced by response oracles passed as arguments: the
  archive response is one value, and the forecast response is a function of the
  `past_days` parameter actually sent (the only request parameter computed by
  the routine; latitude/longitude/timezone are opaque to the logic).
* The outcome records, besides the returned `(df, error, meta["source"])`
  triple, the query parameters the routine sends upstream: `archQuery` is the
  `(start_date, end_date)` pair of the archive request, and `fcQuery` is
  `some past_days` when the forecast endpoint is queried.  These fields are
  pure instrumentation of the two `_safe_json_get` call sites.
* `pd.DataFrame.sort_values("date")` is modelled by an insertion sort on the
  date component (pandas' default sort leaves the relative order of equal
  dates unspecified; a stable sort is one refinement of it, and no property
  below depends on the order of equal-date rows beyond their multiset).
-/

/-- A normalized data frame row: (date, value). -/
abbrev Row : Type := ℤ × ℚ

/-- A raw `daily` payload: `none` when the `daily`/`time` container is absent,
otherwise the zipped `time` / `uv_index_max` parallel arrays, a `none` value
cell standing for a non-numeric entry (NaN after coercion). -/
abbrev Payload : Type := Option (List (ℤ × Option ℚ))

/-- Date-component order on rows: the comparison `sort_values("date")` sorts by. -/
def dateLE (a b : Row) : Prop := a.1 ≤ b.1

instance : DecidableRel dateLE := fun a b => inferInstanceAs (Decidable (a.1 ≤ b.1))

instance : IsTotal Row dateLE := ⟨fun a b => le_total a.1 b.1⟩

instance : IsTrans Row dateLE := ⟨fun _ _ _ h1 h2 => le_trans h1 h2⟩

/-- `df.sort_values("date")`. -/
def sortByDate (l : List Row) : List Row := List.insertionSort dateLE l

/-- `dropna(subset=["uv_index_max"])`: keep only the rows whose value cell is
numeric, pairing each kept date with its parsed value. -/
def dropnaRows (rows : List (ℤ × Option ℚ)) : List Row :=
  rows.filterMap fun r => r.2.map fun q => (r.1, q)

/-- `_uv_json_to_df` (src/proyecto-uv.py lines 42-51): missing container ⇒
empty frame; otherwise coerce values, drop non-numeric rows, sort ascending by
date.  There is no duplicate-date removal in this function. -/
def uv_json_to_df (d : Payload) : List Row :=
  match d with
  | none => []
  | some rows => sortByDate (dropnaRows rows)

/-- The data component handed to the caller of `_safe_json_get`: on error the
code receives `{}`, which normalizes to the empty frame. -/
def dataOf (r : Except String Payload) : Payload :=
  match r with
  | .error _ => none
  | .ok p => p

/-- Boolean row filter of the masks
`(df["date"].dt.date >= s) & (df["date"].dt.date <= e)` followed by `.loc`. -/
def clipDF (s e : ℤ) (l : List Row) : List Row :=
  l.filter fun r => decide (s ≤ r.1 ∧ r.1 ≤ e)

/-- `drop_duplicates(subset=["date"])` with pandas' default `keep="first"`:
scan left to right, keeping a row only when its date was not seen before. -/
def dedupAux (seen : List ℤ) : List Row → List Row
  | [] => []
  | x :: xs => if x.1 ∈ seen then dedupAux seen xs else x :: dedupAux (x.1 :: seen) xs

/-- `df.drop_duplicates(subset=["date"])`, first occurrence kept. -/
def dedupByDate (l : List Row) : List Row := dedupAux [] l

/-- `df["date"].dt.date.max()` of a frame, `none` on an empty frame. -/
def lastDate (l : List Row) : Option ℤ := (l.map Prod.fst).max?

/-- `meta_dict["source"]` values of `fetch_uv_daily_smart`:
`archive`, `archive+forecast(past_days=N)`, `forecast(past_days=N)`, `empty`, `none`. -/
inductive Source : Type
  | archive : Source
  | archiveForecast (past_days : ℤ) : Source
  | forecast (past_days : ℤ) : Source
  | empty : Source
  | noneSrc : Source
deriving DecidableEq, Repr

/-- The `(df, error, meta)` triple returned by `fetch_uv_daily_smart`, plus the
instrumented upstream query parameters (`archQuery` = archive `(start_date, end_date)`;
`fcQuery` = the forecast `past_days` when that endpoint is called). -/
structure Outcome : Type where
  df : List Row
  err : Option String
  source : Source
  archQuery : ℤ × ℤ
  fcQuery : Option ℤ
deriving DecidableEq, Repr

/-- Date sanitization of lines 66-68: swap when `start > end`, then clamp the
end to yesterday.  Returns `(start, end_eff)`. -/
def normRange (today s e : ℤ) : ℤ × ℤ :=
  let p := if s > e then (e, s) else (s, e)
  (p.1, min p.2 (today - 1))

/-- `fetch_uv_daily_smart` (src/proyecto-uv.py lines 57-146).

`archResp` is the archive endpoint's response, `fcResp past_days` the forecast
endpoint's response to a query with that `past_days` (and `forecast_days=1`).
Note the code computes `err_arch` but never inspects it: an archive fetch error
is indistinguishable from an empty archive payload. -/
def fetch_uv_daily_smart (today s e : ℤ) (archResp : Except String Payload)
    (fcResp : ℤ → Except String Payload) : Outcome :=
  let start := (normRange today s e).1
  let end_eff := (normRange today s e).2
  let df_arch := uv_json_to_df (dataOf archResp)
  match lastDate df_arch with
  | some last_arch_date =>
    if last_arch_date ≥ end_eff then
      { df := clipDF start end_eff df_arch, err := none, source := .archive,
        archQuery := (start, end_eff), fcQuery := none }
    else
      let needed_from := last_arch_date + 1
      let days_needed := (end_eff - needed_from) + 1
      let past_days := max 1 (min 92 days_needed)
      match fcResp past_days with
      | .error msg =>
        { df := clipDF start end_eff df_arch,
          err := some ("Forecast fallback falló: " ++ msg), source := .archive,
          archQuery := (start, end_eff), fcQuery := some past_days }
      | .ok p =>
        let df_fc := uv_json_to_df p
        if df_fc = [] then
          { df := clipDF start end_eff df_arch, err := none, source := .archive,
            archQuery := (start, end_eff), fcQuery := some past_days }
        else
          let df_merge := sortByDate (dedupByDate (df_arch ++ clipDF needed_from end_eff df_fc))
          { df := clipDF start end_eff df_merge, err := none,
            source := .archiveForecast past_days,
            archQuery := (start, end_eff), fcQuery := some past_days }
  | none =>
    let days_req := (end_eff - start) + 1
    let past_days := max 1 (min 92 days_req)
    match fcResp past_days with
    | .error msg =>
      { df := [], err := some ("Error consultando forecast: " ++ msg), source := .noneSrc,
        archQuery := (start, end_eff), fcQuery := some past_days }
    | .ok p =>
      let df_fc := uv_json_to_df p
      if df_fc = [] then
        { df := [], err := some ("Sin datos de UVI para el rango/ubicación."), source := .empty,
          archQuery := (start, end_eff), fcQuery := some past_days }
      else
        { df := clipDF start end_eff df_fc, err := none, source := .forecast past_days,
          archQuery := (start, end_eff), fcQuery := some past_days }

/-- A mindicador.cl `serie` entry `{fecha, valor}` after coercion: `none`
components model a missing/unparseable `fecha` (NaT) or `valor` (NaN). -/
abbrev MEntry : Type := Option ℤ × Option ℚ

/-- The `serie` field of a mindicador.cl response: `none` models a field that
is absent or not a list (both take the `Sin serie` branch, exactly as an empty
list does). -/
abbrev MSerie : Type := Option (List MEntry)

/-- `fetch_mindicador_series` (src/proyecto-uv.py lines 192-209): fetch errors
and missing/non-list/empty `serie` fields all yield an empty frame with a
non-null diagnostic; otherwise rows with unparseable date or value are dropped
(`dropna()`) and the rest sorted ascending by date. -/
def fetch_mindicador_series (indicador : String) (resp : Except String MSerie) :
    List Row × Option String :=
  match resp with
  | .error e => ([], some ("Error " ++ indicador ++ ": " ++ e))
  | .ok serieField =>
    match serieField with
    | none => ([], some ("Sin serie para " ++ indicador))
    | some [] => ([], some ("Sin serie para " ++ indicador))
    | some serie =>
      let rows := serie.filterMap fun s =>
        match s with
        | (some d, some v) => some ((d, v) : Row)
        | _ => none
      (sortByDate rows, none)

/-- The list of dates of a frame has no duplicates. -/
def nodupDates (l : List Row) : Prop := (l.map Prod.fst).Nodup

instance (l : List Row) : Decidable (nodupDates l) :=
  inferInstanceAs (Decidable (l.map Prod.fst).Nodup)

/-- A payload whose `time` array carries no duplicate dates (what a well-formed
upstream response satisfies). -/
def payloadNodup (p : Payload) : Prop :=
  match p with
  | none => True
  | some rows => (rows.map Prod.fst).Nodup

instance (p : Payload) : Decidable (payloadNodup p) :=
  match p with
  | none => isTrue trivial
  | some rows => inferInstanceAs (Decidable (rows.map Prod.fst).Nodup)

/-- The value stored at date `d`, `none` when `d` is absent. -/
def valueAt (l : List Row) (d : ℤ) : Option ℚ :=
  (l.find? fun r => r.1 == d).map Prod.snd

/-- A block of consecutive dates `a, a+1, …, b`, all carrying the numeric
value `v` — the shape of payload used in the merge scenario of the spec. -/
def constRows (a b : ℤ) (v : ℚ) : List (ℤ × Option ℚ) :=
  (List.range (b - a + 1).toNat).map fun i => (a + (i : ℤ), some v)

/-- Modelled from the spec's wording of the range normalization (for
comparison with the code's `normRange`): first clamp `end` to yesterday, then
swap if `start` exceeds the clamped end. -/
def normRangeSpec (today s e : ℤ) : ℤ × ℤ :=
  let e2 := min e (today - 1)
  if s > e2 then (e2, s) else (s, e2)

/-! ## Helper lemmas -/

theorem mem_clipDF {s e : ℤ} {l : List Row} {r : Row} (h : r ∈ clipDF s e l) :
    r ∈ l ∧ s ≤ r.1 ∧ r.1 ≤ e := by
  simp only [clipDF, List.mem_filter, decide_eq_true_eq] at h
  exact ⟨h.1, h.2⟩

theorem dedupAux_nodup (l : List Row) : ∀ seen : List ℤ,
    ((dedupAux seen l).map Prod.fst).Nodup ∧
      ∀ d ∈ (dedupAux seen l).map Prod.fst, d ∉ seen := by
  induction l with
  | nil => intro seen; simp [dedupAux]
  | cons x xs ih =>
    intro seen
    simp only [dedupAux]
    split
    · exact ih seen
    · next hx =>
      obtain ⟨h1, h2⟩ := ih (x.1 :: seen)
      refine ⟨?_, ?_⟩
      · simp only [List.map_cons, List.nodup_cons]
        exact ⟨fun hmem => (h2 _ hmem) (by simp), h1⟩
      · intro d hd
        simp only [List.map_cons, List.mem_cons] at hd
        rcases hd with rfl | hd'
        · exact hx
        · intro hseen
          exact (h2 d hd') (by simp [hseen])

theorem nodupDates_dedupByDate (l : List Row) : nodupDates (dedupByDate l) :=
  (dedupAux_nodup l []).1

theorem nodupDates_perm {l l' : List Row} (hp : List.Perm l l') (h : nodupDates l) :
    nodupDates l' :=
  ((hp.map Prod.fst).nodup_iff).1 h

theorem nodupDates_sortByDate {l : List Row} (h : nodupDates l) :
    nodupDates (sortByDate l) :=
  nodupDates_perm (List.perm_insertionSort dateLE l).symm h

theorem nodupDates_clipDF (s e : ℤ) {l : List Row} (h : nodupDates l) :
    nodupDates (clipDF s e l) :=
  List.Nodup.sublist ((List.filter_sublist l).map Prod.fst) h

theorem dropnaRows_dates_sublist (rows : List (ℤ × Option ℚ)) :
    List.Sublist ((dropnaRows rows).map Prod.fst) (rows.map Prod.fst) := by
  induction rows with
  | nil => simp [dropnaRows]
  | cons r rs ih =>
    rcases r with ⟨t, w⟩
    cases w with
    | none => simpa [dropnaRows] using ih.cons t
    | some q => simpa [dropnaRows] using ih.cons₂ t

theorem nodupDates_uv_json_to_df {p : Payload} (h : payloadNodup p) :
    nodupDates (uv_json_to_df p) := by
  cases p with
  | none => simp [uv_json_to_df, nodupDates]
  | some rows =>
    exact nodupDates_sortByDate (List.Nodup.sublist (dropnaRows_dates_sublist rows) h)

theorem mem_dropnaRows {rows : List (ℤ × Option ℚ)} {d : ℤ} {v : ℚ} :
    (d, v) ∈ dropnaRows rows ↔ (d, some v) ∈ rows := by
  simp only [dropnaRows, List.mem_filterMap]
  constructor
  · rintro ⟨⟨t, w⟩, hmem, heq⟩
    cases w with
    | none => simp at heq
    | some q =>
      simp only [Option.map_some', Option.some.injEq, Prod.mk.injEq] at heq
      obtain ⟨rfl, rfl⟩ := heq
      exact hmem
  · intro hmem
    exact ⟨(d, some v), hmem, rfl⟩

/-- On every return path, the dates the routine returns lie inside the
normalized request range. -/
theorem fetch_uv_df_in_range (today s e : ℤ) (archResp : Except String Payload)
    (fcResp : ℤ → Except String Payload) (d : ℤ) (v : ℚ)
    (h : (d, v) ∈ (fetch_uv_daily_smart today s e archResp fcResp).df) :
    (normRange today s e).1 ≤ d ∧ d ≤ (normRange today s e).2 := by
  simp only [fetch_uv_daily_smart] at h
  split at h
  · split at h
    · exact (mem_clipDF h).2
    · split at h
      · exact (mem_clipDF h).2
      · split at h
        · exact (mem_clipDF h).2
        · exact (mem_clipDF h).2
  · split at h
    · simp at h
    · split at h
      · simp at h
      · exact (mem_clipDF h).2

/-- The archive request carries the swapped start and the clamped end,
on every path. -/
theorem fetch_uv_archQuery (today s e : ℤ) (archResp : Except String Payload)
    (fcResp : ℤ → Except String Payload) :
    (fetch_uv_daily_smart today s e archResp fcResp).archQuery
      = ((normRange today s e).1, (normRange today s e).2) := by
  simp only [fetch_uv_daily_smart]
  split
  · split
    · rfl
    · split
      · rfl
      · split
        · rfl
        · rfl
  · split
    · rfl
    · split
      · rfl
      · rfl

theorem normRange_eq (today s e : ℤ) :
    normRange today s e = (min s e, min (max s e) (today - 1)) := by
  simp only [normRange]
  split <;> simp only [Prod.mk.injEq] <;> constructor <;> omega

/-! ## Claim theorems -/

/-- Claim C1 (confirmed): for every location and valid date range `(start, end)`
with `start ≤ end`, every observation returned by the reconciliation routine
`fetch_uv_daily_smart` has a date within `[start, end_clamped]` inclusive, where
`end_clamped` is `end` clamped to yesterday; no return path yields an
out-of-range date. -/
theorem claim_C1_dates_within_range (today s e : ℤ) (archResp : Except String Payload)
    (fcResp : ℤ → Except String Payload) (d : ℤ) (v : ℚ)
    (hse : s ≤ e)
    (h : (d, v) ∈ (fetch_uv_daily_smart today s e archResp fcResp).df) :
    s ≤ d ∧ d ≤ min e (today - 1) := by
  have hr := fetch_uv_df_in_range today s e archResp fcResp d v h
  rw [normRange_eq] at hr
  simp only at hr
  omega

/-- Witness for C1 at `today = 10`, range `[0, 9]`, archive date 5 and
forecast date 7: the returned date 7 lies in `[0, min 9 9]`. -/
theorem claim_C1_witness :
    (0 : ℤ) ≤ 7 ∧ (7 : ℤ) ≤ min 9 (10 - 1) := by
  refine claim_C1_dates_within_range 10 0 9 (Except.ok (some [(5, some 2)]))
    (fun _ => Except.ok (some [(7, some 3)])) 7 3 (by decide) ?_
  decide

/-- Counterexample to C2 as stated: when the archive payload itself carries the
date 9 twice, the archive-only return path (line 90 of the source) passes both
rows through, so the routine returns two observations with the same date. -/
theorem claim_C2_counterexample :
    (fetch_uv_daily_smart 10 0 9 (Except.ok (some [((9 : ℤ), some (1 : ℚ)), (9, some 2)]))
        (fun _ => Except.ok none)).df = [(9, 1), (9, 2)]
    ∧ ¬ nodupDates (fetch_uv_daily_smart 10 0 9
        (Except.ok (some [((9 : ℤ), some (1 : ℚ)), (9, some 2)]))
        (fun _ => Except.ok none)).df := by
  decide

/-- Claim C2 (corrected): provided each upstream payload is free of duplicate
dates (which well-formed Open-Meteo responses are), the series returned by
`fetch_uv_daily_smart` contains no two observations with the same date, on
every return path; on the archive+forecast merge path this holds
unconditionally thanks to `drop_duplicates`. -/
theorem claim_C2_amended_nodup (today s e : ℤ) (archResp : Except String Payload)
    (fcResp : ℤ → Except String Payload)
    (hA : payloadNodup (dataOf archResp))
    (hF : ∀ pd p, fcResp pd = .ok p → payloadNodup p) :
    nodupDates (fetch_uv_daily_smart today s e archResp fcResp).df := by
  have harch : nodupDates (uv_json_to_df (dataOf archResp)) := nodupDates_uv_json_to_df hA
  simp only [fetch_uv_daily_smart]
  split
  · split
    · exact nodupDates_clipDF _ _ harch
    · split
      · exact nodupDates_clipDF _ _ harch
      · split
        · exact nodupDates_clipDF _ _ harch
        · exact nodupDates_clipDF _ _ (nodupDates_sortByDate (nodupDates_dedupByDate _))
  · split
    · simp [nodupDates]
    · next p heq =>
      split
      · simp [nodupDates]
      · exact nodupDates_clipDF _ _ (nodupDates_uv_json_to_df (hF _ _ heq))

/-- Witness for C2 (amended) on a merge of archive date 5 with forecast
date 7. -/
theorem claim_C2_witness :
    nodupDates (fetch_uv_daily_smart 10 0 9 (Except.ok (some [((5 : ℤ), some (2 : ℚ))]))
      (fun _ => Except.ok (some [((7 : ℤ), some (3 : ℚ))]))).df := by
  refine claim_C2_amended_nodup 10 0 9 _ _ (by decide) ?_
  intro pd p hp
  cases hp
  decide

/-- Claim C3 (confirmed): whenever `fetch_uv_daily_smart` queries the forecast
source — both when filling a gap after a non-empty archive result and when the
archive result is empty — the `past_days` parameter sent satisfies
`1 ≤ past_days ≤ 92`; if the computed gap (resp. requested span) exceeds 92
days, `past_days` equals exactly 92 and, the forecast query succeeding, the
outcome carries no error. -/
theorem claim_C3_past_days_bounds (today s e : ℤ) (archResp : Except String Payload)
    (fcResp : ℤ → Except String Payload) :
    (∀ pd, (fetch_uv_daily_smart today s e archResp fcResp).fcQuery = some pd →
        1 ≤ pd ∧ pd ≤ 92)
    ∧ (∀ L p, lastDate (uv_json_to_df (dataOf archResp)) = some L →
        L < (normRange today s e).2 →
        (normRange today s e).2 - L > 92 →
        fcResp 92 = .ok p →
        (fetch_uv_daily_smart today s e archResp fcResp).fcQuery = some 92 ∧
          (fetch_uv_daily_smart today s e archResp fcResp).err = none)
    ∧ (∀ p, uv_json_to_df (dataOf archResp) = [] →
        (normRange today s e).2 - (normRange today s e).1 + 1 > 92 →
        fcResp 92 = .ok p →
        uv_json_to_df p ≠ [] →
        (fetch_uv_daily_smart today s e archResp fcResp).fcQuery = some 92 ∧
          (fetch_uv_daily_smart today s e archResp fcResp).err = none) := by
  refine ⟨?_, ?_, ?_⟩
  · intro pd hpd
    simp only [fetch_uv_daily_smart] at hpd
    split at hpd
    · split at hpd
      · simp at hpd
      · split at hpd
        · simp only [Option.some.injEq] at hpd
          omega
        · split at hpd <;> simp only [Option.some.injEq] at hpd <;> omega
    · split at hpd
      · simp only [Option.some.injEq] at hpd
        omega
      · split at hpd <;> simp only [Option.some.injEq] at hpd <;> omega
  · intro L p hL hlt hgap hok
    have hpd : max 1 (min 92 ((normRange today s e).2 - (L + 1) + 1)) = 92 := by omega
    simp only [fetch_uv_daily_smart, hL]
    rw [if_neg (by omega : ¬ L ≥ (normRange today s e).2)]
    rw [hpd]
    simp only [hok]
    split <;> exact ⟨rfl, rfl⟩
  · intro p hA hspan hok hne
    have hpd : max 1 (min 92 ((normRange today s e).2 - (normRange today s e).1 + 1)) = 92 := by
      omega
    simp only [fetch_uv_daily_smart, hA, lastDate, List.map_nil, List.max?_nil]
    rw [hpd]
    simp only [hok]
    rw [if_neg hne]
    exact ⟨rfl, rfl⟩

/-- Witness for C3: a 200-day span with archive stopping at date 0 (gap 199 >
92) queries the forecast with `past_days = 92` and returns no error; likewise
for a failed (hence empty) archive with a 200-day requested span. -/
theorem claim_C3_witness :
    ((1 : ℤ) ≤ 92 ∧ (92 : ℤ) ≤ 92)
    ∧ ((fetch_uv_daily_smart 200 0 199 (Except.ok (some [((0 : ℤ), some (1 : ℚ))]))
          (fun _ => Except.ok (some [((150 : ℤ), some (2 : ℚ))]))).fcQuery = some 92
        ∧ (fetch_uv_daily_smart 200 0 199 (Except.ok (some [((0 : ℤ), some (1 : ℚ))]))
          (fun _ => Except.ok (some [((150 : ℤ), some (2 : ℚ))]))).err = none)
    ∧ ((fetch_uv_daily_smart 200 0 199 (Except.error "net down")
          (fun _ => Except.ok (some [((150 : ℤ), some (2 : ℚ))]))).fcQuery = some 92
        ∧ (fetch_uv_daily_smart 200 0 199 (Except.error "net down")
          (fun _ => Except.ok (some [((150 : ℤ), some (2 : ℚ))]))).err = none) := by
  refine ⟨?_, ?_, ?_⟩
  · exact (claim_C3_past_days_bounds 200 0 199 (Except.ok (some [((0 : ℤ), some (1 : ℚ))]))
      (fun _ => Except.ok (some [((150 : ℤ), some (2 : ℚ))]))).1 92 (by decide)
  · exact (claim_C3_past_days_bounds 200 0 199 (Except.ok (some [((0 : ℤ), some (1 : ℚ))]))
      (fun _ => Except.ok (some [((150 : ℤ), some (2 : ℚ))]))).2.1 0
      (some [((150 : ℤ), some (2 : ℚ))]) (by decide) (by decide) (by decide) rfl
  · exact (claim_C3_past_days_bounds 200 0 199 (Except.error "net down")
      (fun _ => Except.ok (some [((150 : ℤ), some (2 : ℚ))]))).2.2
      (some [((150 : ℤ), some (2 : ℚ))]) (by decide) (by decide) rfl (by decide)

/-- Counterexample to C4 as stated: with `end_clamped = 99` and the archive's
last date `89 = end_clamped - 10`, the routine queries the forecast source with
`past_days = 10` (`days_needed = end_eff - needed_from + 1 = 10` at line 95),
not the 11 the claim demands. -/
theorem claim_C4_counterexample :
    lastDate (uv_json_to_df (dataOf (Except.ok (some [((89 : ℤ), some (1 : ℚ))])))) = some 89
    ∧ (normRange 100 0 99).2 = 99
    ∧ (fetch_uv_daily_smart 100 0 99 (Except.ok (some [((89 : ℤ), some (1 : ℚ))]))
        (fun _ => Except.ok none)).fcQuery = some 10
    ∧ ¬ ((fetch_uv_daily_smart 100 0 99 (Except.ok (some [((89 : ℤ), some (1 : ℚ))]))
        (fun _ => Except.ok none)).fcQuery = some 11) := by
  decide

/-- Claim C4 (corrected): if the archive source's last returned date is
`end_clamped - 10` and the requested window ends at `end_clamped`, the
reconciliation routine queries the forecast source with `past_days = 10` (the
number of missing days), not 11. -/
theorem claim_C4_amended_past_days_ten (today s e : ℤ) (archResp : Except String Payload)
    (fcResp : ℤ → Except String Payload) (L : ℤ)
    (hL : lastDate (uv_json_to_df (dataOf archResp)) = some L)
    (hten : L = (normRange today s e).2 - 10) :
    (fetch_uv_daily_smart today s e archResp fcResp).fcQuery = some 10 := by
  have hpd : max 1 (min 92 ((normRange today s e).2 - (L + 1) + 1)) = 10 := by omega
  simp only [fetch_uv_daily_smart, hL]
  rw [if_neg (by omega : ¬ L ≥ (normRange today s e).2)]
  rw [hpd]
  cases hfc : fcResp 10 with
  | error msg => simp only [hfc]
  | ok p =>
    simp only [hfc]
    split <;> rfl

/-- Witness for C4 (amended) at `today = 50`, range `[10, 49]`, archive last
date 39. -/
theorem claim_C4_witness :
    (fetch_uv_daily_smart 50 10 49 (Except.ok (some [((39 : ℤ), some (7 : ℚ))]))
      (fun _ => Except.ok none)).fcQuery = some 10 :=
  claim_C4_amended_past_days_ten 50 10 49 _ _ 39 (by decide) (by decide)

set_option maxRecDepth 100000 in
/-- Counterexample to C5 as stated: with `D = 99`, archive dates `D-30 .. D-5`
valued 1 and forecast dates `D-5 .. D` valued 2 (queried with `past_days = 5`),
the merged series has 31 observations but its value at `D-5 = 94` is the
archive's 1, not the forecast's 2: line 119 keeps only forecast rows with
date `≥ last+1`, so the forecast's `D-5` row is discarded before the merge. -/
theorem claim_C5_counterexample :
    (fetch_uv_daily_smart 100 69 99 (Except.ok (some (constRows 69 94 1)))
        (fun _ => Except.ok (some (constRows 94 99 2)))).fcQuery = some 5
    ∧ (fetch_uv_daily_smart 100 69 99 (Except.ok (some (constRows 69 94 1)))
        (fun _ => Except.ok (some (constRows 94 99 2)))).df.length = 31
    ∧ valueAt (fetch_uv_daily_smart 100 69 99 (Except.ok (some (constRows 69 94 1)))
        (fun _ => Except.ok (some (constRows 94 99 2)))).df 94 = some 1
    ∧ ¬ (valueAt (fetch_uv_daily_smart 100 69 99 (Except.ok (some (constRows 69 94 1)))
        (fun _ => Except.ok (some (constRows 94 99 2)))).df 94 = some 2) := by
  decide

set_option maxRecDepth 100000 in
/-- Claim C5 (corrected): in the scenario where the archive returns `D-30 .. D-5`
and the forecast (queried with `past_days = 5`) returns `D-5 .. D` with a
different value at `D-5` (here `D = 99`), the merged series for the window
ending at `D` has exactly 31 observations and its value at `D-5` equals the
archive (primary) source's value — the primary source is authoritative on the
overlapping boundary date. -/
theorem claim_C5_amended_merge_scenario :
    (fetch_uv_daily_smart 100 69 99 (Except.ok (some (constRows 69 94 1)))
        (fun _ => Except.ok (some (constRows 94 99 2)))).df.length = 31
    ∧ valueAt (uv_json_to_df (some (constRows 69 94 1))) 94 = some 1
    ∧ valueAt (uv_json_to_df (some (constRows 94 99 2))) 94 = some 2
    ∧ valueAt (fetch_uv_daily_smart 100 69 99 (Except.ok (some (constRows 69 94 1)))
        (fun _ => Except.ok (some (constRows 94 99 2)))).df 94
        = valueAt (uv_json_to_df (some (constRows 69 94 1))) 94 := by
  decide

/-- Claim C6 (confirmed): if the archive query yields a non-empty series `A`
that does not reach `end_clamped` and the subsequent forecast query fails, the
routine returns `A` clipped to `[start, end_clamped]` together with an error
message embedding the forecast source's diagnostic and provenance `archive` —
the fallback failure never discards the archive data already obtained. -/
theorem claim_C6_fallback_failure_keeps_archive (today s e : ℤ)
    (archResp : Except String Payload) (fcResp : ℤ → Except String Payload)
    (L pd : ℤ) (msg : String)
    (hL : lastDate (uv_json_to_df (dataOf archResp)) = some L)
    (hlt : L < (normRange today s e).2)
    (hpd : pd = max 1 (min 92 ((normRange today s e).2 - (L + 1) + 1)))
    (hfc : fcResp pd = .error msg) :
    (fetch_uv_daily_smart today s e archResp fcResp).df
      = clipDF (normRange today s e).1 (normRange today s e).2 (uv_json_to_df (dataOf archResp))
    ∧ (fetch_uv_daily_smart today s e archResp fcResp).err
      = some ("Forecast fallback falló: " ++ msg)
    ∧ (fetch_uv_daily_smart today s e archResp fcResp).source = Source.archive := by
  subst hpd
  simp only [fetch_uv_daily_smart, hL]
  rw [if_neg (by omega : ¬ L ≥ (normRange today s e).2)]
  simp only [hfc]
  exact ⟨trivial, trivial, trivial⟩

/-- Witness for C6: archive date 5 in range `[0, 9]`, forecast failing with
"boom". -/
theorem claim_C6_witness :
    (fetch_uv_daily_smart 10 0 9 (Except.ok (some [((5 : ℤ), some (2 : ℚ))]))
        (fun _ => Except.error "boom")).df
      = clipDF (normRange 10 0 9).1 (normRange 10 0 9).2
          (uv_json_to_df (dataOf (Except.ok (some [((5 : ℤ), some (2 : ℚ))]))))
    ∧ (fetch_uv_daily_smart 10 0 9 (Except.ok (some [((5 : ℤ), some (2 : ℚ))]))
        (fun _ => Except.error "boom")).err = some ("Forecast fallback falló: " ++ "boom")
    ∧ (fetch_uv_daily_smart 10 0 9 (Except.ok (some [((5 : ℤ), some (2 : ℚ))]))
        (fun _ => Except.error "boom")).source = Source.archive :=
  claim_C6_fallback_failure_keeps_archive 10 0 9 _ _ 5 4 "boom" (by decide) (by decide)
    (by decide) rfl

/-- Counterexample to C7 as stated: archive empty and the forecast series
empty *after* clipping to `[start, end_clamped]` (its only date, 10, lies past
`end_clamped = 9`): the routine returns an empty series with *no* diagnostic
and provenance `forecast(past_days=10)`, not `empty` — the emptiness check at
line 142 runs before clipping. -/
theorem claim_C7_counterexample :
    uv_json_to_df (dataOf (Except.ok (none : Payload))) = []
    ∧ clipDF (normRange 10 0 9).1 (normRange 10 0 9).2
        (uv_json_to_df (some [((10 : ℤ), some (5 : ℚ))])) = []
    ∧ (fetch_uv_daily_smart 10 0 9 (Except.ok none)
        (fun _ => Except.ok (some [((10 : ℤ), some (5 : ℚ))]))).df = []
    ∧ (fetch_uv_daily_smart 10 0 9 (Except.ok none)
        (fun _ => Except.ok (some [((10 : ℤ), some (5 : ℚ))]))).err = none
    ∧ (fetch_uv_daily_smart 10 0 9 (Except.ok none)
        (fun _ => Except.ok (some [((10 : ℤ), some (5 : ℚ))]))).source = Source.forecast 10
    ∧ ¬ ((fetch_uv_daily_smart 10 0 9 (Except.ok none)
        (fun _ => Except.ok (some [((10 : ℤ), some (5 : ℚ))]))).source = Source.empty) := by
  decide

/-- Claim C7 (corrected): when the archive source returns an empty series and
the forecast source's normalized series is empty *before* clipping, the
routine returns an empty series with the non-null "no data available"
diagnostic and provenance `empty`. -/
theorem claim_C7_amended_empty_diagnostic (today s e : ℤ)
    (archResp : Except String Payload) (fcResp : ℤ → Except String Payload)
    (p : Payload) (pd : ℤ)
    (hA : uv_json_to_df (dataOf archResp) = [])
    (hpd : pd = max 1 (min 92 ((normRange today s e).2 - (normRange today s e).1 + 1)))
    (hok : fcResp pd = .ok p)
    (hB : uv_json_to_df p = []) :
    (fetch_uv_daily_smart today s e archResp fcResp).df = []
    ∧ (fetch_uv_daily_smart today s e archResp fcResp).err
      = some ("Sin datos de UVI para el rango/ubicación.")
    ∧ (fetch_uv_daily_smart today s e archResp fcResp).source = Source.empty := by
  subst hpd
  simp only [fetch_uv_daily_smart, hA, lastDate, List.map_nil, List.max?_nil]
  simp only [hok]
  rw [if_pos hB]
  exact ⟨rfl, rfl, rfl⟩

/-- Witness for C7 (amended): failed archive fetch and a forecast payload with
no `daily` container. -/
theorem claim_C7_witness :
    (fetch_uv_daily_smart 10 0 9 (Except.error "net down") (fun _ => Except.ok none)).df = []
    ∧ (fetch_uv_daily_smart 10 0 9 (Except.error "net down") (fun _ => Except.ok none)).err
      = some ("Sin datos de UVI para el rango/ubicación.")
    ∧ (fetch_uv_daily_smart 10 0 9 (Except.error "net down")
        (fun _ => Except.ok none)).source = Source.empty :=
  claim_C7_amended_empty_diagnostic 10 0 9 _ _ none 10 (by decide) (by decide) rfl (by decide)

/-- Counterexample to C8 as stated: for `start = end = today = 100` the code
swaps first (no-op here) and clamps afterwards, sending the archive the range
`(100, 99)` with `start > end`; the claim's clamp-then-swap normalization
would instead produce `(99, 100)`. -/
theorem claim_C8_counterexample :
    (fetch_uv_daily_smart 100 100 100 (Except.ok none) (fun _ => Except.ok none)).archQuery
      = (100, 99)
    ∧ ¬ ((fetch_uv_daily_smart 100 100 100 (Except.ok none)
          (fun _ => Except.ok none)).archQuery.1
        ≤ (fetch_uv_daily_smart 100 100 100 (Except.ok none)
          (fun _ => Except.ok none)).archQuery.2)
    ∧ normRangeSpec 100 100 100 = (99, 100)
    ∧ (fetch_uv_daily_smart 100 100 100 (Except.ok none)
        (fun _ => Except.ok none)).archQuery ≠ normRangeSpec 100 100 100 := by
  decide

/-- Claim C8 (corrected): the routine normalizes its range by first swapping
the bounds when `start > end` and *then* clamping the end to yesterday, so the
effective queried range is `(min start end, min (max start end) yesterday)`;
`start ≤ end` holds for the effective range whenever `min start end` is at
most yesterday, but clamping can push the end below the start when both bounds
lie in the future.  A malformed range is normalized, never rejected (the
routine is total). -/
theorem claim_C8_amended_normalization (today s e : ℤ)
    (archResp : Except String Payload) (fcResp : ℤ → Except String Payload) :
    (fetch_uv_daily_smart today s e archResp fcResp).archQuery
      = (min s e, min (max s e) (today - 1))
    ∧ (min s e ≤ today - 1 →
        (fetch_uv_daily_smart today s e archResp fcResp).archQuery.1
          ≤ (fetch_uv_daily_smart today s e archResp fcResp).archQuery.2) := by
  have h := fetch_uv_archQuery today s e archResp fcResp
  rw [normRange_eq] at h
  simp only at h
  refine ⟨h, fun hle => ?_⟩
  rw [h]
  simp only
  omega

/-- Witness for C8 (amended) at `today = 100` with inverted range
`(105, 98)`. -/
theorem claim_C8_witness :
    (fetch_uv_daily_smart 100 105 98 (Except.ok none) (fun _ => Except.ok none)).archQuery
      = (min 105 98, min (max 105 98) (100 - 1))
    ∧ (fetch_uv_daily_smart 100 105 98 (Except.ok none)
        (fun _ => Except.ok none)).archQuery.1
      ≤ (fetch_uv_daily_smart 100 105 98 (Except.ok none)
        (fun _ => Except.ok none)).archQuery.2 := by
  obtain ⟨h1, h2⟩ := claim_C8_amended_normalization 100 105 98 (Except.ok none)
    (fun _ => Except.ok none)
  exact ⟨h1, h2 (by decide)⟩

/-- Counterexample to C9 as stated: a payload carrying date 0 twice normalizes
to a frame that still contains both rows — `_uv_json_to_df` never removes
duplicate dates (there is no `drop_duplicates` between lines 42 and 51). -/
theorem claim_C9_counterexample :
    uv_json_to_df (some [((0 : ℤ), some (1 : ℚ)), (0, some 2)]) = [(0, 1), (0, 2)]
    ∧ ¬ nodupDates (uv_json_to_df (some [((0 : ℤ), some (1 : ℚ)), (0, some 2)])) := by
  decide

/-- Claim C9 (corrected): for every raw payload, the normalizer returns a
series sorted ascending by date with duplicate dates preserved (not removed);
a payload missing the expected container key yields an empty series rather
than an error, and a date paired with a non-numeric value is excluded from the
output entirely (membership in the output is exactly membership of a numeric
row in the payload). -/
theorem claim_C9_amended_normalizer (p : Payload) (rows : List (ℤ × Option ℚ))
    (d : ℤ) (v : ℚ) :
    List.Sorted dateLE (uv_json_to_df p)
    ∧ uv_json_to_df none = []
    ∧ ((d, v) ∈ uv_json_to_df (some rows) ↔ (d, some v) ∈ rows) := by
  refine ⟨?_, rfl, ?_⟩
  · cases p with
    | none => exact List.sorted_nil
    | some rows' => exact List.sorted_insertionSort dateLE _
  · rw [show uv_json_to_df (some rows) = sortByDate (dropnaRows rows) from rfl, sortByDate]
    rw [List.mem_insertionSort]
    exact mem_dropnaRows

/-- Claim C10 (confirmed): the economic-indicator fetcher reports a missing,
non-list or empty `serie` field as an error (empty series paired with the
non-null diagnostic `Sin serie para …`), whereas the UV normalizer maps a
missing `daily` container to an empty series — and has no error channel at
all — so the two sources signal "no data" asymmetrically. -/
theorem claim_C10_asymmetric_no_data (ind : String) :
    fetch_mindicador_series ind (Except.ok none) = ([], some ("Sin serie para " ++ ind))
    ∧ fetch_mindicador_series ind (Except.ok (some [])) = ([], some ("Sin serie para " ++ ind))
    ∧ (fetch_mindicador_series ind (Except.ok none)).2 ≠ none
    ∧ uv_json_to_df none = [] :=
  ⟨rfl, rfl, fun h => Option.noConfusion h, rfl⟩
